import Mathlib

/-!
Verification of the Leany ST7735S display driver against its design
specification.  The definitions below are a shallow embedding of
src/Components/display/ST7735S.c, src/Components/display/ST7735_initialisation.c,
src/Components/display/ST7735_initialisation.h and
src/Components/display/icons.c.  Machine integers are modelled as Nat with
explicit reductions modulo 256 or 65536 where the C code narrows; hardware
interaction is modelled as an explicit event trace plus a small environment
describing how the SPI/DMA flags behave during the call.
-/

namespace Leany

/-! ### Error codes

Modelled from the spec: errorstack.h is not under src.  Section 7 of the
spec describes an error value as a chain of (operation identifier, return
code) layers with a severity, where `pushErrorCode` wraps a lower-layer
error with the identifier of the calling operation and `createErrorCode`
starts a fresh chain.  `ERR_SUCCESS` is the empty chain. -/

/-- Modelled from the spec: error-chain value of errorstack.h (not under src).
The head of `layers` is the most recently pushed (operation, return code) pair. -/
structure errorCode_u where
  layers : List (Nat × Nat)
  level : Nat
  deriving DecidableEq

/-- Modelled from the spec: the success value, an empty error chain. -/
def ERR_SUCCESS : errorCode_u := ⟨[], 0⟩

/-- Modelled from the spec: severity used for recoverable warnings. -/
def ERR_WARNING : Nat := 1

/-- Modelled from the spec: severity used for errors. -/
def ERR_ERROR : Nat := 2

/-- Modelled from the spec: severity used for critical errors. -/
def ERR_CRITICAL : Nat := 3

/-- Modelled from the spec: start a fresh one-layer error chain. -/
def createErrorCode (functionId returnCode level : Nat) : errorCode_u :=
  ⟨[(functionId, returnCode)], level⟩

/-- Modelled from the spec: wrap an existing error with the identifier of the
calling operation as it propagates. -/
def pushErrorCode (e : errorCode_u) (functionId returnCode : Nat) : errorCode_u :=
  ⟨(functionId, returnCode) :: e.layers, e.level⟩

/-- Modelled from the spec: an error value is any non-empty chain. -/
def isError (e : errorCode_u) : Bool := !e.layers.isEmpty

/-! ### Constants from ST7735S.c and icons.h -/

/-- Number of pixels in width (ST7735S.c). -/
def DISPLAY_WIDTH : Nat := 160

/-- Number of pixels in height (ST7735S.c). -/
def DISPLAY_HEIGHT : Nat := 128

/-- Size of the frame buffer in bytes (ST7735S.c); sizeof(pixel_t) = 2 is
modelled from the spec (fixed 16-bit pixel format, the pixel type itself is
not under src). -/
def FRAME_BUFFER_SIZE : Nat := (DISPLAY_WIDTH * DISPLAY_HEIGHT * 2) / 10

/-- Function identifiers of SSD1306functionCodes_e (ST7735S.c). -/
def INIT : Nat := 0

/-- sendCommand() identifier in SSD1306functionCodes_e. -/
def SEND_CMD : Nat := 1

/-- printBackground() identifier in SSD1306functionCodes_e. -/
def FILL_BACKGROUND : Nat := 2

/-- printCharacter() identifier in SSD1306functionCodes_e. -/
def PRINT_CHAR : Nat := 3

/-- st7735sSetOrientation() identifier in SSD1306functionCodes_e. -/
def ORIENT : Nat := 4

/-- stateStartup() identifier in SSD1306functionCodes_e. -/
def STARTUP : Nat := 5

/-- stateConfiguring() identifier in SSD1306functionCodes_e. -/
def CONFIG : Nat := 6

/-- stateWaitingForTXdone() identifier in SSD1306functionCodes_e. -/
def WAITING_DMA_RDY : Nat := 7

/-- Glyph cell height (icons.h). -/
def VERDANA_NB_ROWS : Nat := 49

/-- Glyph cell width (icons.h). -/
def VERDANA_NB_COLUMNS : Nat := 39

/-- Character identifier of the digit 1 in verdanaCharacter_e (icons.h). -/
def VERDANA_1 : Nat := 1

/-! ### Registers from ST7735_registers.h, plus the panel-function registers
used by ST7735_initialisation.c whose defining header is not under src
(modelled from the spec: opaque vendor register identifiers, datasheet
values). -/

/-- Software reset (ST7735_registers.h). -/
def SWRESET : Nat := 0x01

/-- Sleep out and booster on (ST7735_registers.h). -/
def SLPOUT : Nat := 0x11

/-- Display inversion off (ST7735_registers.h). -/
def INVOFF : Nat := 0x20

/-- Column address set (ST7735_registers.h). -/
def CASET : Nat := 0x2A

/-- Row address set (ST7735_registers.h). -/
def RASET : Nat := 0x2B

/-- Memory write (ST7735_registers.h). -/
def RAMWR : Nat := 0x2C

/-- Memory data access control (ST7735_registers.h). -/
def MADCTL : Nat := 0x36

/-- Interface pixel format (ST7735_registers.h). -/
def COLMOD : Nat := 0x3A

/-- Modelled from the spec: frame rate control, normal mode (vendor value). -/
def FRMCTR1 : Nat := 0xB1

/-- Modelled from the spec: frame rate control, idle mode (vendor value). -/
def FRMCTR2 : Nat := 0xB2

/-- Modelled from the spec: frame rate control, panel-idle modes (vendor value). -/
def FRMCTR3 : Nat := 0xB3

/-- Modelled from the spec: display inversion control (vendor value). -/
def INVCTR : Nat := 0xB4

/-- Modelled from the spec: power control 1 (vendor value). -/
def PWCTR1 : Nat := 0xC0

/-- Modelled from the spec: power control 2 (vendor value). -/
def PWCTR2 : Nat := 0xC1

/-- Modelled from the spec: power control 3 (vendor value). -/
def PWCTR3 : Nat := 0xC2

/-- Modelled from the spec: power control 4 (vendor value). -/
def PWCTR4 : Nat := 0xC3

/-- Modelled from the spec: power control 5 (vendor value). -/
def PWCTR5 : Nat := 0xC4

/-- Modelled from the spec: VCOM voltage control (vendor value). -/
def VMCTR1 : Nat := 0xC5

/-! ### Orientations

Modelled from the spec: orientation_e is declared in a header that is not
under src; the spec fixes exactly four orientations, and ST7735S.c names
them PORTRAIT, PORTRAIT_180, LANDSCAPE, LANDSCAPE_180 with NB_ORIENTATION
as the out-of-range sentinel used to initialise currentOrientation. -/

/-- Modelled from the spec: first orientation value. -/
def PORTRAIT : Nat := 0

/-- Modelled from the spec: second orientation value. -/
def PORTRAIT_180 : Nat := 1

/-- Modelled from the spec: third orientation value. -/
def LANDSCAPE : Nat := 2

/-- Modelled from the spec: fourth orientation value. -/
def LANDSCAPE_180 : Nat := 3

/-- Modelled from the spec: number of orientations, also the sentinel stored
in currentOrientation before any orientation has been applied. -/
def NB_ORIENTATION : Nat := 4

/-! ### Hardware events and environment -/

/-- One observable hardware action of the driver.  `dcLine false` is the
data/command line driven low (COMMAND), `dcLine true` is the line driven
high (DATA). -/
inductive Ev
  | dcLine (data : Bool)
  | spiEnable
  | spiDisable
  | txByte (b : Nat)
  | clearOVR
  | dmaDisableChannel
  | dmaClearFlagGI
  | dmaSetDataLength (n : Nat)
  | dmaEnableChannel
  | enableDMAReqTX
  | backlightOn
  deriving DecidableEq

/-- Record of one sendCommand invocation: the register, the parameter array
(none models a NULL pointer) and the parameter count passed. -/
structure Cmd where
  regNumber : Nat
  parameters : Option (List Nat)
  nbParameters : Nat
  deriving DecidableEq

/-- How the hardware flags behave during a call.  `spiReady = true` means
every SPI flag poll (TXE, BSY) observes the flag in its ready position
before the timeout expires; `spiReady = false` means the flag never becomes
ready and the timeout expires during the first wait loop.  Intermediate
timings (a flag becoming ready only after part of the timeout) are not
modelled; no claim distinguishes them.  `notifyOk` tells whether the DMA
completion notification arrives before the timeout, and `dmaTE` whether the
DMA transfer-error flag is observed set after the chunk. -/
structure Env where
  spiReady : Bool
  notifyOk : Bool
  dmaTE : Bool
  deriving DecidableEq

/-- The environment of a fault-free transfer. -/
def goodEnv : Env := ⟨true, true, false⟩

/-- State machine states of ST7735S.c (function-pointer valued `state`). -/
inductive StId
  | startup
  | configuring
  | idle
  | error
  deriving DecidableEq

/-- The file-scoped mutable driver state of ST7735S.c that the claims
observe: the bound handles, the enable bits of the SPI peripheral and the
DMA channel, the state pointer, the cached orientation and dimensions. -/
structure DriverState where
  spiBound : Bool
  spiEnabled : Bool
  dmaChannelEnabled : Bool
  machineState : StId
  currentOrientation : Nat
  displayWidth : Nat
  displayHeight : Nat
  deriving DecidableEq

/-- Driver state right after createST7735Stask: handles bound, SPI and the
DMA channel disabled, state = stateStartup, currentOrientation =
NB_ORIENTATION, dimensions zero. -/
def initialDriverState : DriverState :=
  ⟨true, false, false, StId.startup, NB_ORIENTATION, 0, 0⟩

/-! ### sendCommand (ST7735S.c lines 195-249) -/

/-- Maximum number of parameters a command can have (sendCommand). -/
def MAX_PARAMETERS : Nat := 16

/-- Result of a sendCommand call: the returned error code, the hardware
event trace, and the invocation record. -/
structure CmdOut where
  code : errorCode_u
  events : List Ev
  cmds : List Cmd
  deriving DecidableEq

/-- sendCommand, ST7735S.c lines 195-249.  With `spiReady`, both waits after
LL_SPI_TransmitData8 observe TXE set, so the body of the parameter loop
reaches `if(!LL_SPI_IsActiveFlag_TXE(spiHandle))` with TXE set and skips
LL_SPI_TransmitData8 for every parameter byte; with the flag never ready the
timeout expires during the first wait and the parameter loop is not entered.
Either way no parameter byte is clocked out. -/
def sendCommand (env : Env) (spiBound : Bool) (regNumber : Nat)
    (parameters : Option (List Nat)) (nbParameters : Nat) : CmdOut :=
  let record : List Cmd := [⟨regNumber, parameters, nbParameters⟩]
  if !spiBound then
    ⟨createErrorCode SEND_CMD 1 ERR_WARNING, [], record⟩
  else if parameters.isNone && nbParameters != 0 then
    ⟨createErrorCode SEND_CMD 2 ERR_WARNING, [], record⟩
  else if nbParameters > MAX_PARAMETERS then
    ⟨createErrorCode SEND_CMD 3 ERR_WARNING, [], record⟩
  else
    ⟨if env.spiReady then ERR_SUCCESS else createErrorCode SEND_CMD 4 ERR_WARNING,
     [Ev.dcLine false, Ev.spiEnable, Ev.txByte regNumber, Ev.dcLine true,
      Ev.clearOVR, Ev.spiDisable],
     record⟩

/-! ### sendData (ST7735S.c lines 252-303) -/

/-- Result of a sendData call: the returned code, the value of the pointed
byte counter on return, the number of bytes handed to the DMA, the event
trace and the updated driver state. -/
structure DataOut where
  code : errorCode_u
  remaining : Nat
  chunk : Nat
  events : List Ev
  s : DriverState
  deriving DecidableEq

/-- sendData, ST7735S.c lines 252-303.  `dataRemaining = none` models a NULL
pointer argument; `resultG` is the file-scoped `result` variable, read only
in the stale-error branch taken when TXE never comes up.  Note that after
the decrement the source tests `if(!dataRemaining)` - the pointer, which is
known non-null there - rather than the pointed value, so the branch that
disables the DMA channel and the SPI peripheral is dead. -/
def sendData (env : Env) (resultG : errorCode_u) (s : DriverState)
    (dataRemaining : Option Nat) : DataOut :=
  if dataRemaining.isNone then
    ⟨ERR_SUCCESS, 0, 0, [], s⟩
  else
    let remaining := dataRemaining.getD 0
    let ev0 : List Ev := [Ev.dcLine false, Ev.spiEnable, Ev.txByte RAMWR]
    let s1 := { s with spiEnabled := true }
    if !env.spiReady then
      ⟨pushErrorCode resultG FILL_BACKGROUND 3, remaining, 0, ev0, s1⟩
    else
      let dataToSend := if remaining > FRAME_BUFFER_SIZE then FRAME_BUFFER_SIZE else remaining
      let ev1 := ev0 ++ [Ev.dcLine true, Ev.dmaDisableChannel, Ev.dmaClearFlagGI,
                         Ev.dmaSetDataLength dataToSend, Ev.dmaEnableChannel, Ev.enableDMAReqTX]
      let s2 := { s1 with dmaChannelEnabled := true }
      if !env.notifyOk then
        ⟨createErrorCode FILL_BACKGROUND 1 ERR_CRITICAL, remaining, dataToSend, ev1,
         { s2 with machineState := StId.error }⟩
      else if env.dmaTE then
        ⟨createErrorCode WAITING_DMA_RDY 2 ERR_ERROR, remaining, dataToSend,
         ev1 ++ [Ev.dmaDisableChannel, Ev.spiDisable],
         { s2 with machineState := StId.error, dmaChannelEnabled := false,
                   spiEnabled := false }⟩
      else
        if dataRemaining.isNone then
          ⟨ERR_SUCCESS, remaining - dataToSend, dataToSend,
           ev1 ++ [Ev.dmaDisableChannel, Ev.spiDisable],
           { s2 with dmaChannelEnabled := false, spiEnabled := false }⟩
        else
          ⟨ERR_SUCCESS, remaining - dataToSend, dataToSend, ev1, s2⟩

/-! ### setWindow (ST7735S.c lines 165-181) -/

/-- Result of a composite driver step: return code, updated state, the
sendCommand invocations performed, and the hardware event trace. -/
structure StepOut where
  code : errorCode_u
  s : DriverState
  cmds : List Cmd
  events : List Ev
  deriving DecidableEq

/-- setWindow, ST7735S.c lines 165-181.  The four CASET and RASET parameter
bytes are uint8_t, hence the reductions modulo 256. -/
def setWindow (env : Env) (s : DriverState) (Xstart Ystart width height : Nat) : StepOut :=
  let columns : List Nat := [0, Xstart % 256, 0, (Xstart + width) % 256]
  let out1 := sendCommand env s.spiBound CASET (some columns) 4
  if isError out1.code then
    ⟨pushErrorCode out1.code FILL_BACKGROUND 1, s, out1.cmds, out1.events⟩
  else
    let rows : List Nat := [0, Ystart % 256, 0, (Ystart + height) % 256]
    let out2 := sendCommand env s.spiBound RASET (some rows) 4
    if isError out2.code then
      ⟨pushErrorCode out2.code FILL_BACKGROUND 2, s, out1.cmds ++ out2.cmds,
       out1.events ++ out2.events⟩
    else
      ⟨ERR_SUCCESS, s, out1.cmds ++ out2.cmds, out1.events ++ out2.events⟩

/-! ### The configuration script (ST7735_initialisation.h / .c) -/

/-- Number of commands to send during initialisation
(ST7735_initialisation.h line 7). -/
def ST7735_NB_COMMANDS : Nat := 2

/-- Structure describing a command to send during configuration
(ST7735_initialisation.h); `parameters = none` models a NULL pointer. -/
structure st7735_command_t where
  registerNumber : Nat
  nbParameters : Nat
  parameters : Option (List Nat)
  deriving DecidableEq

/-- Modelled from the spec: the parameter byte arrays of
ST7735_initialisation.c are built from vendor constants (ONELINEPERIOD_1,
AVDD_5V, ...) whose defining header is not under src; the spec treats them
as opaque vendor constants, so they are abstracted as the fields of this
structure, with the array lengths fixed by ST7735_initialisation.c.  The
`orientations` field is the MADCTL value table indexed by orientation
(ST7735S.c line 325), also defined outside src. -/
structure ConfigArgs where
  framerateControl_args : List Nat
  framerateControlPartial_args : List Nat
  inversionControl_arg : Nat
  powerControl1_args : List Nat
  powerControl2_arg : Nat
  powerControl3_args : List Nat
  powerControl4_args : List Nat
  powerControl5_args : List Nat
  vmCtr1_arg : Nat
  madCtrl_arg : Nat
  colorMode_arg : Nat
  orientations : List Nat
  deriving DecidableEq

/-- A fixed instantiation of the opaque vendor constants, used to evaluate
the model at concrete inputs; no theorem depends on these byte values. -/
def defaultArgs : ConfigArgs :=
  ⟨[0, 0, 0], [0, 0, 0, 0, 0, 0], 0, [0, 0, 0], 0, [0, 0], [0, 0], [0, 0], 0, 0, 0,
   [0, 0, 0, 0]⟩

/-- The initialiser list of st7735configurationScript,
ST7735_initialisation.c lines 52-68: fifteen command descriptors from
SWRESET through COLMOD. -/
def st7735configurationScriptInitialiser (a : ConfigArgs) : List st7735_command_t :=
  [⟨SWRESET, 0, none⟩,
   ⟨SLPOUT, 0, none⟩,
   ⟨FRMCTR1, 3, some a.framerateControl_args⟩,
   ⟨FRMCTR2, 3, some a.framerateControl_args⟩,
   ⟨FRMCTR3, 3, some a.framerateControlPartial_args⟩,
   ⟨INVCTR, 1, some [a.inversionControl_arg]⟩,
   ⟨PWCTR1, 3, some a.powerControl1_args⟩,
   ⟨PWCTR2, 1, some [a.powerControl2_arg]⟩,
   ⟨PWCTR3, 2, some a.powerControl3_args⟩,
   ⟨PWCTR4, 2, some a.powerControl4_args⟩,
   ⟨PWCTR5, 2, some a.powerControl5_args⟩,
   ⟨VMCTR1, 1, some [a.vmCtr1_arg]⟩,
   ⟨INVOFF, 0, none⟩,
   ⟨MADCTL, 1, some [a.madCtrl_arg]⟩,
   ⟨COLMOD, 1, some [a.colorMode_arg]⟩]

/-- The array st7735configurationScript is declared with length
ST7735_NB_COMMANDS = 2, so the excess initialiser entries beyond the
declared size are dropped (C drops excess aggregate initialiser elements,
with a compiler diagnostic). -/
def st7735configurationScript (a : ConfigArgs) : List st7735_command_t :=
  (st7735configurationScriptInitialiser a).take ST7735_NB_COMMANDS

/-! ### st7735sSetOrientation (ST7735S.c lines 313-351) -/

/-- st7735sSetOrientation, ST7735S.c lines 313-351.  The idempotence check
against currentOrientation precedes the range check. -/
def st7735sSetOrientation (a : ConfigArgs) (env : Env) (s : DriverState)
    (orientation : Nat) : StepOut :=
  if s.currentOrientation == orientation then
    ⟨ERR_SUCCESS, s, [], []⟩
  else if NB_ORIENTATION ≤ orientation then
    ⟨createErrorCode ORIENT 1 ERR_CRITICAL, s, [], []⟩
  else
    let out := sendCommand env s.spiBound MADCTL (some [a.orientations.getD orientation 0]) 1
    if isError out.code then
      ⟨pushErrorCode out.code ORIENT 2, s, out.cmds, out.events⟩
    else
      let portrait := orientation == PORTRAIT || orientation == PORTRAIT_180
      ⟨ERR_SUCCESS,
       { s with currentOrientation := orientation,
                displayHeight := if portrait then DISPLAY_WIDTH else DISPLAY_HEIGHT,
                displayWidth := if portrait then DISPLAY_HEIGHT else DISPLAY_WIDTH },
       out.cmds, out.events⟩

/-! ### The configuration command loop (ST7735S.c lines 412-420) -/

/-- The command loop of stateConfiguring, ST7735S.c lines 412-420: send each
descriptor of st7735configurationScript in order, stopping at the first
error, which is wrapped with CONFIG / 1. -/
def runConfigScript (env : Env) (spiBound : Bool) :
    List st7735_command_t → errorCode_u × List Cmd × List Ev
  | [] => (ERR_SUCCESS, [], [])
  | c :: rest =>
    let out := sendCommand env spiBound c.registerNumber c.parameters c.nbParameters
    if isError out.code then
      (pushErrorCode out.code CONFIG 1, out.cmds, out.events)
    else
      let tail := runConfigScript env spiBound rest
      (tail.1, out.cmds ++ tail.2.1, out.events ++ tail.2.2)

/-! ### The streaming fill loop (ST7735S.c lines 445-447) -/

/-- Result of the do-while streaming loop: final code, final value of the
byte counter, the chunk sizes handed to the DMA in order, the event trace
and the final driver state. -/
structure LoopOut where
  code : errorCode_u
  remaining : Nat
  chunks : List Nat
  events : List Ev
  s : DriverState
  deriving DecidableEq

/-- The do-while loop of stateConfiguring, ST7735S.c lines 445-447:
`do { result = sendData(&dataTXRemaining); } while(dataTXRemaining && !isError(result));`.
`fuel` bounds the number of iterations; every theorem supplies at least
`remaining` units, which is always enough because a successful iteration
removes at least one byte and any other iteration exits the loop. -/
def fillLoopFuel (env : Env) : Nat → errorCode_u → DriverState → Nat → LoopOut
  | 0, resultG, s, remaining => ⟨resultG, remaining, [], [], s⟩
  | fuel + 1, resultG, s, remaining =>
    let out := sendData env resultG s (some remaining)
    if out.remaining != 0 && !(isError out.code) then
      let rest := fillLoopFuel env fuel out.code out.s out.remaining
      ⟨rest.code, rest.remaining, out.chunk :: rest.chunks, out.events ++ rest.events, rest.s⟩
    else
      ⟨out.code, out.remaining, [out.chunk], out.events, out.s⟩

/-! ### stateConfiguring (ST7735S.c lines 406-451) -/

/-- Result of one stateConfiguring step: the returned code, the final driver
state, the sendCommand invocations, the event trace and the chunk sizes of
the background-fill streaming loop. -/
structure ConfOut where
  code : errorCode_u
  s : DriverState
  cmds : List Cmd
  events : List Ev
  chunks : List Nat
  deriving DecidableEq

/-- stateConfiguring, ST7735S.c lines 406-451: replay the (truncated)
configuration script, apply LANDSCAPE_180, turn the backlight on, fill the
frame buffer with the background colour, set the full-screen window, then
stream (DISPLAY_HEIGHT + 2) * (DISPLAY_WIDTH + 1) * 2 bytes through the
do-while loop.  After the loop the function unconditionally sets
`state = stateIdle` and returns ERR_SUCCESS, regardless of the code the
last sendData left in `result`. -/
def stateConfiguring (a : ConfigArgs) (env : Env) (s : DriverState) : ConfOut :=
  let script := runConfigScript env s.spiBound (st7735configurationScript a)
  if isError script.1 then
    ⟨script.1, { s with machineState := StId.error }, script.2.1, script.2.2, []⟩
  else
    let orient := st7735sSetOrientation a env s LANDSCAPE_180
    if isError orient.code then
      ⟨pushErrorCode orient.code CONFIG 2, { orient.s with machineState := StId.error },
       script.2.1 ++ orient.cmds, script.2.2 ++ orient.events, []⟩
    else
      let evBacklight : List Ev := [Ev.backlightOn]
      let window := setWindow env orient.s 0 0 DISPLAY_WIDTH DISPLAY_HEIGHT
      if isError window.code then
        ⟨pushErrorCode window.code CONFIG 3, { window.s with machineState := StId.error },
         script.2.1 ++ orient.cmds ++ window.cmds,
         script.2.2 ++ orient.events ++ evBacklight ++ window.events, []⟩
      else
        let total := (DISPLAY_HEIGHT + 2) * (DISPLAY_WIDTH + 1) * 2
        let loopOut := fillLoopFuel env total window.code window.s total
        ⟨ERR_SUCCESS, { loopOut.s with machineState := StId.idle },
         script.2.1 ++ orient.cmds ++ window.cmds,
         script.2.2 ++ orient.events ++ evBacklight ++ window.events ++ loopOut.events,
         loopOut.chunks⟩

/-! ### Glyph rasterizer (icons.c lines 37-50) -/

/-- High byte of a 16-bit pixel value narrowed to a uint8_t. -/
def pixelHi (colour : Nat) : Nat := (colour >>> 8) % 256

/-- Low byte of a 16-bit pixel value narrowed to a uint8_t. -/
def pixelLo (colour : Nat) : Nat := colour % 256

/-- The while loop of uncompressIconLine, icons.c lines 43-49: while the
mask is non-zero, emit the big-endian byte pair of the foreground colour if
the masked bit of the row is set, of the background colour otherwise, then
shift the mask right by one.  The extra Nat argument bounds the recursion;
the C loop halves a power-of-two mask each iteration, so starting from bit
VERDANA_NB_COLUMNS - 1 it performs exactly VERDANA_NB_COLUMNS iterations
and a bound of VERDANA_NB_COLUMNS is always enough. -/
def uncompressLoop (fg bg bits : Nat) : Nat → Nat → List Nat
  | _, 0 => []
  | mask, bound + 1 =>
    if mask = 0 then []
    else
      let colour := if bits &&& mask != 0 then fg else bg
      pixelHi colour :: pixelLo colour :: uncompressLoop fg bg bits (mask >>> 1) bound

/-- uncompressIconLine, icons.c lines 37-50.  The glyph table and the
foreground/background colours are parameters: the verdana_48ptBitmaps table
is constant data, and the colour constants BRIGHT_GRAY / DARK_CHARCOAL are
defined in a header that is not under src (modelled from the spec: two
fixed 16-bit colours). -/
def uncompressIconLine (table : Nat → Nat → Nat) (fg bg : Nat)
    (character line : Nat) : List Nat :=
  uncompressLoop fg bg (table character line) (1 <<< (VERDANA_NB_COLUMNS - 1))
    VERDANA_NB_COLUMNS

/-- Specification-side description of one rasterized glyph row: one
big-endian 16-bit pixel per column, columns scanned from bit
VERDANA_NB_COLUMNS - 1 down to bit 0 of the row word, foreground where the
bit is set. -/
def rasterizeRowSpec (fg bg bits : Nat) : List Nat :=
  ((List.range VERDANA_NB_COLUMNS).map (fun i =>
    let colour := if bits.testBit (VERDANA_NB_COLUMNS - 1 - i) then fg else bg
    [pixelHi colour, pixelLo colour])).flatten

/-- Decode a rasterized byte stream back to a bit pattern: each big-endian
byte pair contributes a set bit at its column position when it equals the
foreground byte pair. -/
def decodeLine (fg : Nat) : List Nat → Nat
  | hi :: lo :: rest =>
    (if hi = pixelHi fg ∧ lo = pixelLo fg then 2 ^ (rest.length / 2) else 0)
      + decodeLine fg rest
  | _ => 0

/-! ### stateIdle (ST7735S.c lines 458-481) -/

/-- Result of one stateIdle step: returned code, final driver state, the
rasterized scratch-buffer content, the byte count handed to sendData (none
when the step rendered nothing), the remaining count after that call, the
sendCommand invocations and the event trace. -/
structure IdleOut where
  code : errorCode_u
  s : DriverState
  buffer : List Nat
  transferRequested : Option Nat
  transferRemaining : Nat
  cmds : List Cmd
  events : List Ev
  deriving DecidableEq

/-- stateIdle, ST7735S.c lines 458-481.  On its first run (static nbChar =
1) it sets a window, rasterizes all VERDANA_NB_ROWS rows of VERDANA_1 into
the scratch buffer - the iterator advances by VERDANA_NB_COLUMNS * 2 bytes
per row, exactly the number of bytes uncompressIconLine writes, so the rows
are modelled as consecutive appends from offset 0 - and then hands
VERDANA_NB_COLUMNS * VERDANA_NB_ROWS * 2 bytes to a single sendData call.
The setWindow return value is discarded by the source; its final
sendCommand result is what the file-scoped `result` holds when sendData
reads it. -/
def stateIdle (table : Nat → Nat → Nat) (fg bg : Nat) (env : Env)
    (s : DriverState) (nbChar : Nat) : IdleOut :=
  if nbChar != 0 then
    let window := setWindow env s 2 2 (VERDANA_NB_COLUMNS + 1) (VERDANA_NB_ROWS + 2)
    let buffer := (List.range VERDANA_NB_ROWS).foldl
      (fun acc row => acc ++ uncompressIconLine table fg bg VERDANA_1 row) []
    let characterSize := VERDANA_NB_COLUMNS * VERDANA_NB_ROWS * 2
    let out := sendData env window.code window.s (some characterSize)
    ⟨ERR_SUCCESS,
     if isError out.code then { out.s with machineState := StId.error } else out.s,
     buffer, some characterSize, out.remaining, window.cmds,
     window.events ++ out.events⟩
  else
    ⟨ERR_SUCCESS, s, [], none, 0, [], []⟩

/-! ### stateError (ST7735S.c lines 488-490) -/

/-- stateError, ST7735S.c lines 488-490: returns ERR_SUCCESS, performs no
hardware access and leaves the state pointer unchanged, so the machine
stays in the Error state forever. -/
def stateError (s : DriverState) : StepOut := ⟨ERR_SUCCESS, s, [], []⟩

/-- Specification-side predicate on a sequence of chunk sizes: starting from
`rem` bytes, every chunk is exactly min(remaining, C) and the remaining
count decreases by exactly that chunk (so it never underflows and is
monotonically non-increasing). -/
def chunkSpecHolds (C : Nat) : Nat → List Nat → Bool
  | _, [] => true
  | rem, c :: rest => (c == min rem C) && chunkSpecHolds C (rem - c) rest

/-! ### Helper lemmas -/

/-- ERR_SUCCESS is not an error. -/
theorem isError_ERR_SUCCESS : isError ERR_SUCCESS = false := rfl

/-- FRAME_BUFFER_SIZE evaluates to 4096 bytes. -/
theorem FRAME_BUFFER_SIZE_eq : FRAME_BUFFER_SIZE = 4096 := rfl

/-- On the fault-free environment, sendData through a non-null pointer
returns success. -/
theorem sendData_good_code (resultG : errorCode_u) (s : DriverState) (r : Nat) :
    (sendData goodEnv resultG s (some r)).code = ERR_SUCCESS := by
  simp only [sendData, goodEnv]
  split
  · simp_all
  · split <;> simp_all

/-- On the fault-free environment, sendData decrements the pointed counter
by the clamped chunk size. -/
theorem sendData_good_remaining (resultG : errorCode_u) (s : DriverState) (r : Nat) :
    (sendData goodEnv resultG s (some r)).remaining = r - min r FRAME_BUFFER_SIZE := by
  simp only [sendData, goodEnv]
  split_ifs <;> simp_all <;> omega

/-- On the fault-free environment, the chunk handed to the DMA is the
clamped remaining count. -/
theorem sendData_good_chunk (resultG : errorCode_u) (s : DriverState) (r : Nat) :
    (sendData goodEnv resultG s (some r)).chunk = min r FRAME_BUFFER_SIZE := by
  simp only [sendData, goodEnv]
  split_ifs <;> simp_all <;> omega

/-- Unfolding of one do-while iteration that exits the loop. -/
theorem fillLoopFuel_succ_stop (env : Env) (fuel : Nat) (resultG : errorCode_u)
    (s : DriverState) (r : Nat)
    (h : ((sendData env resultG s (some r)).remaining != 0
        && !(isError (sendData env resultG s (some r)).code)) = false) :
    fillLoopFuel env (fuel + 1) resultG s r
      = ⟨(sendData env resultG s (some r)).code,
         (sendData env resultG s (some r)).remaining,
         [(sendData env resultG s (some r)).chunk],
         (sendData env resultG s (some r)).events,
         (sendData env resultG s (some r)).s⟩ := by
  simp only [fillLoopFuel]
  rw [h]
  simp

/-- Unfolding of one do-while iteration that continues the loop. -/
theorem fillLoopFuel_succ_go (env : Env) (fuel : Nat) (resultG : errorCode_u)
    (s : DriverState) (r : Nat)
    (h : ((sendData env resultG s (some r)).remaining != 0
        && !(isError (sendData env resultG s (some r)).code)) = true) :
    fillLoopFuel env (fuel + 1) resultG s r
      = ⟨(fillLoopFuel env fuel (sendData env resultG s (some r)).code
            (sendData env resultG s (some r)).s
            (sendData env resultG s (some r)).remaining).code,
         (fillLoopFuel env fuel (sendData env resultG s (some r)).code
            (sendData env resultG s (some r)).s
            (sendData env resultG s (some r)).remaining).remaining,
         (sendData env resultG s (some r)).chunk
           :: (fillLoopFuel env fuel (sendData env resultG s (some r)).code
                (sendData env resultG s (some r)).s
                (sendData env resultG s (some r)).remaining).chunks,
         (sendData env resultG s (some r)).events
           ++ (fillLoopFuel env fuel (sendData env resultG s (some r)).code
                (sendData env resultG s (some r)).s
                (sendData env resultG s (some r)).remaining).events,
         (fillLoopFuel env fuel (sendData env resultG s (some r)).code
            (sendData env resultG s (some r)).s
            (sendData env resultG s (some r)).remaining).s⟩ := by
  simp only [fillLoopFuel]
  rw [h]
  simp

/-- Full characterisation of the fault-free streaming loop, for any fuel of
at least `S` iterations: the loop drives the counter to exactly zero,
returns success, performs ceil(S / FRAME_BUFFER_SIZE) chunk transfers whose
sizes sum to S, and every chunk is exactly min(remaining,
FRAME_BUFFER_SIZE) with the remaining count decreasing by that chunk. -/
theorem fillLoopFuel_good_spec (fuel : Nat) :
    ∀ (S : Nat) (resultG : errorCode_u) (s : DriverState), 0 < S → S ≤ fuel →
    (fillLoopFuel goodEnv fuel resultG s S).remaining = 0 ∧
    (fillLoopFuel goodEnv fuel resultG s S).code = ERR_SUCCESS ∧
    (fillLoopFuel goodEnv fuel resultG s S).chunks.sum = S ∧
    (fillLoopFuel goodEnv fuel resultG s S).chunks.length
      = (S + (FRAME_BUFFER_SIZE - 1)) / FRAME_BUFFER_SIZE ∧
    chunkSpecHolds FRAME_BUFFER_SIZE S (fillLoopFuel goodEnv fuel resultG s S).chunks
      = true := by
  induction fuel with
  | zero =>
    intro S resultG s hS hle
    omega
  | succ fuel ih =>
    intro S resultG s hS hle
    have hcode := sendData_good_code resultG s S
    have hrem := sendData_good_remaining resultG s S
    have hchunk := sendData_good_chunk resultG s S
    by_cases hC : S ≤ FRAME_BUFFER_SIZE
    · have hrem0 : (sendData goodEnv resultG s (some S)).remaining = 0 := by
        rw [hrem]; omega
      have hcond : ((sendData goodEnv resultG s (some S)).remaining != 0
          && !(isError (sendData goodEnv resultG s (some S)).code)) = false := by
        rw [hrem0]; simp
      have hch : (sendData goodEnv resultG s (some S)).chunk = S := by
        rw [hchunk]; omega
      rw [fillLoopFuel_succ_stop goodEnv fuel resultG s S hcond]
      dsimp only
      refine ⟨hrem0, hcode, by simp [hch], ?_, ?_⟩
      · rw [FRAME_BUFFER_SIZE_eq] at hC ⊢
        simp only [List.length_cons, List.length_nil]
        omega
      · rw [hch]
        simp only [chunkSpecHolds, Bool.and_eq_true, beq_iff_eq]
        constructor
        · omega
        · simp [chunkSpecHolds]
    · have hrem1 : (sendData goodEnv resultG s (some S)).remaining = S - FRAME_BUFFER_SIZE := by
        rw [hrem]; omega
      have hpos : 0 < S - FRAME_BUFFER_SIZE := by
        rw [FRAME_BUFFER_SIZE_eq] at hC ⊢; omega
      have hcond : ((sendData goodEnv resultG s (some S)).remaining != 0
          && !(isError (sendData goodEnv resultG s (some S)).code)) = true := by
        rw [hrem1, hcode]; simp [isError_ERR_SUCCESS]; omega
      have hle2 : S - FRAME_BUFFER_SIZE ≤ fuel := by
        rw [FRAME_BUFFER_SIZE_eq] at hC ⊢; omega
      have hch : (sendData goodEnv resultG s (some S)).chunk = FRAME_BUFFER_SIZE := by
        rw [hchunk]; omega
      obtain ⟨ih1, ih2, ih3, ih4, ih5⟩ :=
        ih (S - FRAME_BUFFER_SIZE) (sendData goodEnv resultG s (some S)).code
          (sendData goodEnv resultG s (some S)).s hpos hle2
      rw [fillLoopFuel_succ_go goodEnv fuel resultG s S hcond]
      dsimp only
      rw [hrem1, hch]
      refine ⟨ih1, ih2, ?_, ?_, ?_⟩
      · simp only [List.sum_cons, ih3]
        rw [FRAME_BUFFER_SIZE_eq] at hC ⊢
        omega
      · simp only [List.length_cons, ih4]
        rw [FRAME_BUFFER_SIZE_eq] at hC ⊢
        omega
      · simp only [chunkSpecHolds, Bool.and_eq_true, beq_iff_eq]
        constructor
        · omega
        · exact ih5

/-- One unfolding of the rasterizer while loop at a power-of-two mask. -/
theorem uncompressLoop_two_pow (fg bg bits k bound : Nat) :
    uncompressLoop fg bg bits (2 ^ k) (bound + 1)
      = (let colour := if bits &&& 2 ^ k != 0 then fg else bg
         pixelHi colour :: pixelLo colour
           :: uncompressLoop fg bg bits (2 ^ k >>> 1) bound) := by
  have h : 2 ^ k ≠ 0 := (Nat.two_pow_pos k).ne'
  simp only [uncompressLoop]
  rw [if_neg h]

/-- Shifting a power of two right by one halves the exponent. -/
theorem two_pow_succ_shiftRight (k : Nat) : (2 ^ (k + 1)) >>> 1 = 2 ^ k := by
  rw [Nat.shiftRight_eq_div_pow, pow_one, pow_succ, Nat.mul_div_cancel]
  omega

/-- The rasterizer loop at mask 2^k with bound k+1 emits 2 * (k + 1) bytes,
independently of the row bits. -/
theorem uncompressLoop_length (fg bg bits : Nat) :
    ∀ k, (uncompressLoop fg bg bits (2 ^ k) (k + 1)).length = 2 * (k + 1) := by
  intro k
  induction k with
  | zero => simp [uncompressLoop]
  | succ k ih =>
    rw [uncompressLoop_two_pow, two_pow_succ_shiftRight]
    simp only [List.length_cons, ih]
    omega

/-- Testing a bit through a power-of-two mask agrees with Nat.testBit. -/
theorem and_two_pow_ne (bits k : Nat) : (bits &&& 2 ^ k != 0) = bits.testBit k := by
  rw [Nat.and_two_pow]
  cases h : bits.testBit k
  · simp
  · simp [(Nat.two_pow_pos k).ne']

/-- The rasterizer loop emits exactly the specification stream: one
big-endian byte pair per column, scanned from bit k down to bit 0. -/
theorem uncompressLoop_eq_spec (fg bg bits : Nat) :
    ∀ k, uncompressLoop fg bg bits (2 ^ k) (k + 1)
      = ((List.range (k + 1)).map (fun i =>
          let colour := if bits.testBit (k - i) then fg else bg
          [pixelHi colour, pixelLo colour])).flatten := by
  intro k
  induction k with
  | zero =>
    rw [uncompressLoop_two_pow]
    simp [uncompressLoop, and_two_pow_ne, List.range_succ, List.range_zero]
  | succ k ih =>
    rw [uncompressLoop_two_pow, two_pow_succ_shiftRight, ih]
    conv_rhs => rw [List.range_succ_eq_map]
    simp only [List.map_cons, List.flatten_cons, List.map_map, Nat.sub_zero,
      Function.comp_def, Nat.add_sub_add_right, and_two_pow_ne, List.cons_append,
      List.nil_append, Nat.succ_eq_add_one]

/-- Two 16-bit colours with identical big-endian byte pairs are equal. -/
theorem pixel_bytes_inj (fg bg : Nat) (hf : fg < 65536) (hb : bg < 65536)
    (h : pixelHi fg = pixelHi bg ∧ pixelLo fg = pixelLo bg) : fg = bg := by
  simp only [pixelHi, pixelLo, Nat.shiftRight_eq_div_pow] at h
  norm_num at h
  omega

/-- Decoding the rasterizer loop output recovers the k+1 low bits of the
row word, provided the two colours are distinct 16-bit values. -/
theorem decode_uncompressLoop (fg bg bits : Nat) (hf : fg < 65536) (hb : bg < 65536)
    (hne : fg ≠ bg) :
    ∀ k, decodeLine fg (uncompressLoop fg bg bits (2 ^ k) (k + 1)) = bits % 2 ^ (k + 1) := by
  intro k
  induction k with
  | zero =>
    rw [uncompressLoop_two_pow]
    dsimp only
    by_cases hbit : bits &&& 2 ^ 0 != 0
    · rw [if_pos hbit]
      rw [show uncompressLoop fg bg bits (2 ^ 0 >>> 1) 0 = [] from rfl]
      rw [decodeLine, show decodeLine fg ([] : List Nat) = 0 from rfl]
      rw [if_pos ⟨rfl, rfl⟩]
      have : bits % 2 = 1 := by
        have h1 : bits &&& 1 = bits % 2 := Nat.and_one_is_mod bits
        simp only [pow_zero] at hbit
        rw [h1] at hbit
        simp only [bne_iff_ne, ne_eq] at hbit
        omega
      simpa using this.symm
    · rw [if_neg hbit]
      rw [show uncompressLoop fg bg bits (2 ^ 0 >>> 1) 0 = [] from rfl]
      rw [decodeLine, show decodeLine fg ([] : List Nat) = 0 from rfl]
      rw [if_neg (fun hcl => hne (pixel_bytes_inj fg bg hf hb
        ⟨hcl.1.symm, hcl.2.symm⟩))]
      have : bits % 2 = 0 := by
        have h1 : bits &&& 1 = bits % 2 := Nat.and_one_is_mod bits
        simp only [pow_zero] at hbit
        rw [h1] at hbit
        simp only [bne_iff_ne, ne_eq, not_not] at hbit
        omega
      simpa using this.symm
  | succ k ih =>
    rw [uncompressLoop_two_pow, two_pow_succ_shiftRight]
    dsimp only
    rw [decodeLine]
    have hlen : (uncompressLoop fg bg bits (2 ^ k) (k + 1)).length = 2 * (k + 1) :=
      uncompressLoop_length fg bg bits k
    rw [hlen, ih]
    have hdiv : 2 * (k + 1) / 2 = k + 1 := by omega
    rw [hdiv]
    have hmod : bits % 2 ^ (k + 2) = bits % 2 ^ (k + 1) + 2 ^ (k + 1) * (bits / 2 ^ (k + 1) % 2) := by
      have h2 : (2 : Nat) ^ (k + 2) = 2 ^ (k + 1) * 2 := by ring
      rw [h2, Nat.mod_mul]
    have htb : (bits &&& 2 ^ (k + 1) != 0) = bits.testBit (k + 1) :=
      and_two_pow_ne bits (k + 1)
    have htarget : bits.testBit (k + 1) = decide (bits / 2 ^ (k + 1) % 2 = 1) :=
      Nat.testBit_to_div_mod
    by_cases hbit : bits &&& 2 ^ (k + 1) != 0
    · rw [if_pos hbit]
      rw [if_pos ⟨rfl, rfl⟩]
      have h1 : bits / 2 ^ (k + 1) % 2 = 1 := by
        rw [hbit] at htb
        rw [htarget] at htb
        simpa using htb.symm
      rw [hmod, h1]
      ring
    · rw [if_neg hbit]
      rw [if_neg (fun hcl => hne (pixel_bytes_inj fg bg hf hb
        ⟨hcl.1.symm, hcl.2.symm⟩))]
      have h0 : bits / 2 ^ (k + 1) % 2 = 0 := by
        simp only [Bool.not_eq_true] at hbit
        rw [hbit] at htb
        rw [htarget] at htb
        have := htb.symm
        simp only [decide_eq_false_iff_not] at this
        omega
      rw [hmod, h0]
      ring

/-- A left fold that appends per-row output equals the flattened map. -/
theorem foldl_append_eq_flatten (f : Nat → List Nat) (l : List Nat) :
    ∀ init : List Nat,
      l.foldl (fun acc row => acc ++ f row) init = init ++ (l.map f).flatten := by
  induction l with
  | nil => intro init; simp
  | cons x xs ih => intro init; simp [ih, List.append_assoc]

/-- uncompressIconLine always writes exactly 2 * VERDANA_NB_COLUMNS bytes,
whatever the row bits are. -/
theorem uncompressIconLine_length (table : Nat → Nat → Nat) (fg bg c r : Nat) :
    (uncompressIconLine table fg bg c r).length = 2 * VERDANA_NB_COLUMNS := by
  have h1 : (1 : Nat) <<< (VERDANA_NB_COLUMNS - 1) = 2 ^ 38 := by
    rw [Nat.one_shiftLeft]
    norm_num [VERDANA_NB_COLUMNS]
  unfold uncompressIconLine
  rw [h1, show VERDANA_NB_COLUMNS = 38 + 1 from rfl,
    uncompressLoop_length fg bg (table c r) 38]

/-- The glyph buffer of the first stateIdle step is the concatenation of the
rasterized rows, in row order, starting at offset zero. -/
theorem stateIdle_buffer_eq (table : Nat → Nat → Nat) (fg bg : Nat) (env : Env)
    (s : DriverState) :
    (stateIdle table fg bg env s 1).buffer
      = (List.range VERDANA_NB_ROWS).foldl
          (fun acc row => acc ++ uncompressIconLine table fg bg VERDANA_1 row) [] := rfl

/-- The first stateIdle step hands exactly the glyph byte count to sendData. -/
theorem stateIdle_transfer_eq (table : Nat → Nat → Nat) (fg bg : Nat) (env : Env)
    (s : DriverState) :
    (stateIdle table fg bg env s 1).transferRequested
      = some (VERDANA_NB_COLUMNS * VERDANA_NB_ROWS * 2) := rfl

/-- Driver state at the entry of stateConfiguring on the nominal path. -/
def configuringEntry : DriverState :=
  { initialDriverState with machineState := StId.configuring }

/-- Environment in which the DMA transfer-error flag is raised after a
chunk while the SPI flags and the completion notification behave. -/
def dmaErrorEnv : Env := ⟨true, true, true⟩

/-! ### Claim theorems -/

/-- C1: the claim states that during Configuring all 15 descriptors of the
startup script, SWRESET through COLMOD, are sent via sendCommand exactly
once in order before orientation is applied.  The initialiser list does
hold those 15 descriptors in order, but ST7735_initialisation.h declares
the array with length ST7735_NB_COMMANDS = 2, so the loop sends only
SWRESET and SLPOUT before the MADCTL orientation command: the register
trace of the whole state is [SWRESET, SLPOUT, MADCTL, CASET, RASET]. -/
theorem claim1_configuring_sends_only_two_script_commands :
    (st7735configurationScriptInitialiser defaultArgs).length = 15 ∧
    (st7735configurationScriptInitialiser defaultArgs).map st7735_command_t.registerNumber
      = [SWRESET, SLPOUT, FRMCTR1, FRMCTR2, FRMCTR3, INVCTR, PWCTR1, PWCTR2, PWCTR3,
         PWCTR4, PWCTR5, VMCTR1, INVOFF, MADCTL, COLMOD] ∧
    ST7735_NB_COMMANDS = 2 ∧
    (st7735configurationScript defaultArgs).map st7735_command_t.registerNumber
      = [SWRESET, SLPOUT] ∧
    (stateConfiguring defaultArgs goodEnv configuringEntry).cmds.map Cmd.regNumber
      = [SWRESET, SLPOUT, MADCTL, CASET, RASET] := by decide

/-- C2: for every payload size S > 0 and buffer capacity
C = FRAME_BUFFER_SIZE, the streaming do-while loop around sendData performs
exactly ceil(S / C) chunk transfers, each chunk of size min(remaining, C),
the remaining count decreasing by exactly that chunk on each successful
chunk and reaching exactly 0 when the loop exits successfully. -/
theorem claim2_streaming_loop_chunks (S : Nat) (hS : 0 < S)
    (resultG : errorCode_u) (s : DriverState) :
    (fillLoopFuel goodEnv S resultG s S).remaining = 0 ∧
    (fillLoopFuel goodEnv S resultG s S).code = ERR_SUCCESS ∧
    (fillLoopFuel goodEnv S resultG s S).chunks.sum = S ∧
    (fillLoopFuel goodEnv S resultG s S).chunks.length
      = (S + (FRAME_BUFFER_SIZE - 1)) / FRAME_BUFFER_SIZE ∧
    chunkSpecHolds FRAME_BUFFER_SIZE S (fillLoopFuel goodEnv S resultG s S).chunks
      = true :=
  fillLoopFuel_good_spec S S resultG s hS (Nat.le_refl S)

/-- Witness for C2 at the concrete payload size 5000: two chunks. -/
theorem claim2_streaming_loop_chunks_witness :
    0 < 5000 ∧
    ((fillLoopFuel goodEnv 5000 ERR_SUCCESS initialDriverState 5000).remaining = 0 ∧
     (fillLoopFuel goodEnv 5000 ERR_SUCCESS initialDriverState 5000).code = ERR_SUCCESS ∧
     (fillLoopFuel goodEnv 5000 ERR_SUCCESS initialDriverState 5000).chunks.sum = 5000 ∧
     (fillLoopFuel goodEnv 5000 ERR_SUCCESS initialDriverState 5000).chunks.length
       = (5000 + (FRAME_BUFFER_SIZE - 1)) / FRAME_BUFFER_SIZE ∧
     chunkSpecHolds FRAME_BUFFER_SIZE 5000
       (fillLoopFuel goodEnv 5000 ERR_SUCCESS initialDriverState 5000).chunks = true) :=
  ⟨by decide, claim2_streaming_loop_chunks 5000 (by decide) ERR_SUCCESS initialDriverState⟩

/-- C3: the claim states that when a chunk completes successfully and the
decremented remaining count reaches 0, the engine disables the DMA channel
and the SPI peripheral before returning success.  The source instead tests
the pointer (`if(!dataRemaining)`) rather than the pointed value after the
decrement, so on this very path the call returns success with the channel
and the peripheral still enabled: no disable event follows the channel
enable. -/
theorem claim3_sendData_zero_remaining_leaves_channel_enabled :
    (sendData goodEnv ERR_SUCCESS configuringEntry (some FRAME_BUFFER_SIZE)).code
      = ERR_SUCCESS ∧
    (sendData goodEnv ERR_SUCCESS configuringEntry (some FRAME_BUFFER_SIZE)).remaining = 0 ∧
    (sendData goodEnv ERR_SUCCESS configuringEntry (some FRAME_BUFFER_SIZE)).s.dmaChannelEnabled
      = true ∧
    (sendData goodEnv ERR_SUCCESS configuringEntry (some FRAME_BUFFER_SIZE)).s.spiEnabled
      = true ∧
    Ev.spiDisable ∉ (sendData goodEnv ERR_SUCCESS configuringEntry (some FRAME_BUFFER_SIZE)).events ∧
    (sendData goodEnv ERR_SUCCESS configuringEntry (some FRAME_BUFFER_SIZE)).events.getLast?
      = some Ev.enableDMAReqTX := by decide

/-- C4: the claim states that a DMA transfer error during the Configuring
background fill transitions the machine to the absorbing Error state (the
next state executed is Error) and leaves the DMA channel disabled.
sendData itself does set the state to Error and disables the channel and
the peripheral, and the Error state is absorbing, but stateConfiguring then
unconditionally overwrites the state with Idle and returns success, so the
next state the worker executes is Idle, not Error. -/
theorem claim4_dma_error_state_overwritten_to_idle :
    (∀ s : DriverState, stateError s = ⟨ERR_SUCCESS, s, [], []⟩) ∧
    (sendData dmaErrorEnv ERR_SUCCESS configuringEntry (some FRAME_BUFFER_SIZE)).s.machineState
      = StId.error ∧
    (sendData dmaErrorEnv ERR_SUCCESS configuringEntry (some FRAME_BUFFER_SIZE)).s.dmaChannelEnabled
      = false ∧
    isError (sendData dmaErrorEnv ERR_SUCCESS configuringEntry (some FRAME_BUFFER_SIZE)).code
      = true ∧
    (stateConfiguring defaultArgs dmaErrorEnv configuringEntry).s.machineState = StId.idle ∧
    (stateConfiguring defaultArgs dmaErrorEnv configuringEntry).s.machineState ≠ StId.error ∧
    (stateConfiguring defaultArgs dmaErrorEnv configuringEntry).code = ERR_SUCCESS ∧
    (stateConfiguring defaultArgs dmaErrorEnv configuringEntry).s.dmaChannelEnabled = false :=
  ⟨fun s => rfl, by decide⟩

/-- C5 counterexample: the claim states that setWindow(2, 2, 10, 12) issues
CASET with column bounds [2, 11] and RASET with row bounds [2, 13]; the
source computes end = start + dimension, so the parameter bytes are
[0, 2, 0, 12] and [0, 2, 0, 14], not [0, 2, 0, 11] and [0, 2, 0, 13]. -/
theorem claim5_setWindow_bounds_counterexample :
    (setWindow goodEnv configuringEntry 2 2 10 12).cmds.map Cmd.parameters
      = [some [0, 2, 0, 12], some [0, 2, 0, 14]] ∧
    ¬ ((setWindow goodEnv configuringEntry 2 2 10 12).cmds.map Cmd.parameters
      = [some [0, 2, 0, 11], some [0, 2, 0, 13]]) := by decide

/-- C5 amended: setWindow(2, 2, 10, 12) issues CASET with parameter bytes
encoding column bounds [2, 12] and RASET encoding row bounds [2, 14]
(end = start + dimension), and succeeds. -/
theorem claim5_setWindow_bounds_amended :
    (setWindow goodEnv configuringEntry 2 2 10 12).cmds
      = [⟨CASET, some [0, 2, 0, 12], 4⟩, ⟨RASET, some [0, 2, 0, 14], 4⟩] ∧
    (setWindow goodEnv configuringEntry 2 2 10 12).code = ERR_SUCCESS := by decide

/-- C6 counterexample: the claim states that every orientation greater than
or equal to NB_ORIENTATION is rejected with the InvalidOrientation error
from every session state, including the initial state.  In the initial
state currentOrientation is the sentinel NB_ORIENTATION itself, and the
idempotence check runs before the range check, so requesting
NB_ORIENTATION there returns success (not an error), issuing no command. -/
theorem claim6_initial_sentinel_counterexample :
    NB_ORIENTATION ≤ NB_ORIENTATION ∧
    initialDriverState.currentOrientation = NB_ORIENTATION ∧
    (st7735sSetOrientation defaultArgs goodEnv initialDriverState NB_ORIENTATION).code
      = ERR_SUCCESS ∧
    isError (st7735sSetOrientation defaultArgs goodEnv initialDriverState NB_ORIENTATION).code
      = false ∧
    (st7735sSetOrientation defaultArgs goodEnv initialDriverState NB_ORIENTATION).cmds
      = [] := by decide

/-- C6 amended: for every orientation greater than or equal to
NB_ORIENTATION that differs from the cached current orientation,
st7735sSetOrientation returns the InvalidOrientation error (ORIENT, code 1,
critical), issues no command, produces no hardware event and leaves the
driver state unchanged. -/
theorem claim6_out_of_range_rejected (a : ConfigArgs) (env : Env) (s : DriverState)
    (o : Nat) (hrange : NB_ORIENTATION ≤ o) (hne : o ≠ s.currentOrientation) :
    st7735sSetOrientation a env s o
      = ⟨createErrorCode ORIENT 1 ERR_CRITICAL, s, [], []⟩ := by
  have h1 : (s.currentOrientation == o) = false :=
    beq_eq_false_iff_ne.mpr (Ne.symm hne)
  simp [st7735sSetOrientation, h1, hrange]

/-- Witness for C6 at orientation 5 from the initial state. -/
theorem claim6_out_of_range_rejected_witness :
    NB_ORIENTATION ≤ 5 ∧ (5 ≠ initialDriverState.currentOrientation) ∧
    st7735sSetOrientation defaultArgs goodEnv initialDriverState 5
      = ⟨createErrorCode ORIENT 1 ERR_CRITICAL, initialDriverState, [], []⟩ :=
  ⟨by decide, by decide,
   claim6_out_of_range_rejected defaultArgs goodEnv initialDriverState 5
     (by decide) (by decide)⟩

/-- C7: the claim states that a valid sendCommand call with a bound handle,
non-null parameters and 0 < n <= 16 transmits the register byte with the
data/command line low and then each parameter byte with the line high,
skipping none while the transmit-ready flag is set within the timeout.  The
source guards the transmit with `if(!LL_SPI_IsActiveFlag_TXE(spiHandle))`
directly after waiting for the flag, so precisely when TXE is ready in time
the parameter transmit is skipped: the call returns success having clocked
out only the register byte. -/
theorem claim7_sendCommand_skips_parameter_bytes :
    (sendCommand goodEnv true CASET (some [0x42]) 1).code = ERR_SUCCESS ∧
    Ev.txByte 0x42 ∉ (sendCommand goodEnv true CASET (some [0x42]) 1).events ∧
    (sendCommand goodEnv true CASET (some [0x42]) 1).events
      = [Ev.dcLine false, Ev.spiEnable, Ev.txByte CASET, Ev.dcLine true,
         Ev.clearOVR, Ev.spiDisable] := by decide

/-- C8: with nbParameters = 0 the observable behaviour of sendCommand does
not depend on the parameter pointer at all (in particular a null pointer is
never dereferenced), and with a bound handle, a non-null pointer and
nbParameters > 16 the call returns TooManyParameters (SEND_CMD, code 3)
with no hardware event: the data/command line is not toggled, the
peripheral is not enabled and no byte is transmitted. -/
theorem claim8_sendCommand_guards (env : Env) (spiBound : Bool) (regNumber : Nat) :
    (∀ l : List Nat,
      (sendCommand env spiBound regNumber none 0).code
          = (sendCommand env spiBound regNumber (some l) 0).code ∧
      (sendCommand env spiBound regNumber none 0).events
          = (sendCommand env spiBound regNumber (some l) 0).events) ∧
    (∀ (l : List Nat) (n : Nat), MAX_PARAMETERS < n →
      sendCommand env true regNumber (some l) n
        = ⟨createErrorCode SEND_CMD 3 ERR_WARNING, [], [⟨regNumber, some l, n⟩]⟩) := by
  constructor
  · intro l
    cases spiBound <;> simp [sendCommand]
  · intro l n hn
    simp [sendCommand, hn]

/-- Witness for C8 at n = 17 and a two-byte array for the n = 0 conjunct. -/
theorem claim8_sendCommand_guards_witness :
    MAX_PARAMETERS < 17 ∧
    sendCommand goodEnv true RAMWR (some [7]) 17
      = ⟨createErrorCode SEND_CMD 3 ERR_WARNING, [], [⟨RAMWR, some [7], 17⟩]⟩ ∧
    (sendCommand goodEnv true RAMWR none 0).code
      = (sendCommand goodEnv true RAMWR (some [1, 2]) 0).code :=
  ⟨by decide,
   (claim8_sendCommand_guards goodEnv true RAMWR).2 [7] 17 (by decide),
   ((claim8_sendCommand_guards goodEnv true RAMWR).1 [1, 2]).1⟩

/-- C9: for every character and row, uncompressIconLine emits one
big-endian 16-bit pixel per column, scanning the columns from bit
VERDANA_NB_COLUMNS - 1 down to bit 0 of the table row, foreground where the
bit is set and background where it is clear; and decoding each emitted byte
pair back to a bit reproduces the original 39-column bit pattern exactly,
for any two distinct 16-bit colours. -/
theorem claim9_rasterize_roundtrip (table : Nat → Nat → Nat)
    (character line fg bg : Nat) (hf : fg < 65536) (hb : bg < 65536)
    (hne : fg ≠ bg) :
    uncompressIconLine table fg bg character line
      = rasterizeRowSpec fg bg (table character line) ∧
    decodeLine fg (uncompressIconLine table fg bg character line)
      = table character line % 2 ^ VERDANA_NB_COLUMNS := by
  have h1 : (1 : Nat) <<< (VERDANA_NB_COLUMNS - 1) = 2 ^ 38 := by
    rw [Nat.one_shiftLeft]
    norm_num [VERDANA_NB_COLUMNS]
  constructor
  · unfold uncompressIconLine rasterizeRowSpec
    rw [h1, show VERDANA_NB_COLUMNS = 38 + 1 from rfl,
      uncompressLoop_eq_spec fg bg (table character line) 38]
  · unfold uncompressIconLine
    rw [h1, show VERDANA_NB_COLUMNS = 38 + 1 from rfl,
      decode_uncompressLoop fg bg (table character line) hf hb hne 38]

/-- Witness for C9 on a concrete row word and colour pair. -/
theorem claim9_rasterize_roundtrip_witness :
    (43690 : Nat) < 65536 ∧ (21845 : Nat) < 65536 ∧ (43690 : Nat) ≠ 21845 ∧
    decodeLine 43690 (uncompressIconLine (fun _ _ => 17175674880) 43690 21845 0 0)
      = 17175674880 % 2 ^ VERDANA_NB_COLUMNS :=
  ⟨by decide, by decide, by decide,
   (claim9_rasterize_roundtrip (fun _ _ => 17175674880) 0 0 43690 21845
     (by decide) (by decide) (by decide)).2⟩

/-- Flattening a map whose per-element output has constant length c yields
l.length * c elements. -/
theorem flatten_map_length_const (f : Nat → List Nat) (c : Nat)
    (hf : ∀ x, (f x).length = c) :
    ∀ l : List Nat, ((l.map f).flatten).length = l.length * c := by
  intro l
  induction l with
  | nil => simp
  | cons x xs ih =>
    simp only [List.map_cons, List.flatten_cons, List.length_append, List.length_cons,
      hf, ih]
    ring

/-- C10: the first Idle-state glyph render rasterizes all VERDANA_NB_ROWS =
49 rows into the scratch buffer before the single streamed transfer, each
row writing exactly 2 * VERDANA_NB_COLUMNS = 78 bytes at consecutive
offsets (the iterator advance equals the per-row write size), for a total
of 3822 bytes, then hands exactly 3822 bytes to one sendData call; 3822
never exceeds FRAME_BUFFER_SIZE = 4096, so every write stays inside
displayBuffer. -/
theorem claim10_glyph_render_within_bounds :
    FRAME_BUFFER_SIZE = 4096 ∧
    VERDANA_NB_ROWS * (2 * VERDANA_NB_COLUMNS) = 3822 ∧
    3822 ≤ FRAME_BUFFER_SIZE ∧
    ∀ (table : Nat → Nat → Nat) (fg bg : Nat) (env : Env) (s : DriverState),
      (∀ row, (uncompressIconLine table fg bg VERDANA_1 row).length
          = 2 * VERDANA_NB_COLUMNS) ∧
      (stateIdle table fg bg env s 1).buffer.length = 3822 ∧
      (stateIdle table fg bg env s 1).transferRequested = some 3822 := by
  refine ⟨rfl, rfl, by decide, ?_⟩
  intro table fg bg env s
  refine ⟨fun row => uncompressIconLine_length table fg bg VERDANA_1 row, ?_, ?_⟩
  · rw [stateIdle_buffer_eq, foldl_append_eq_flatten, List.nil_append]
    rw [flatten_map_length_const (fun row => uncompressIconLine table fg bg VERDANA_1 row)
      (2 * VERDANA_NB_COLUMNS)
      (fun row => uncompressIconLine_length table fg bg VERDANA_1 row)
      (List.range VERDANA_NB_ROWS)]
    rw [List.length_range]
    rfl
  · rw [stateIdle_transfer_eq]
    rfl

end Leany
